import Mathlib

/-!
Verification of the NadeLauncher admin frontend core: the token store,
the axios request/response interceptors (single-retry-on-401 refresh
protocol, `src/lib/api.ts`), the AuthProvider gate
(`src/components/auth/AuthProvider.tsx`), and the editor session view
(`src/app/dashboard/editor/page.tsx`).

Each TypeScript function relevant to the claims is shallowly embedded as
an executable Lean definition; asynchronous network effects are
parameters (the outcome an awaited call would have had), so every
definition is a pure function of its inputs.
-/

namespace NadeLauncher

/-- `UserRole` from `src/lib/types.ts`: `'user' | 'worker' | 'admin'`. -/
inductive UserRole where
  | user
  | worker
  | admin
deriving DecidableEq, Repr

/-- `User` from `src/lib/types.ts` (fields the core logic reads). -/
structure User where
  id : String
  username : String
  isPremium : Bool
  role : UserRole
deriving DecidableEq, Repr

/-- `AuthResponse` from `src/lib/types.ts`:
`{accessToken, refreshToken, user}`. -/
structure AuthResponse where
  accessToken : String
  refreshToken : String
  user : User
deriving DecidableEq, Repr

/-- `SessionStatus` from `src/lib/types.ts`. -/
inductive SessionStatus where
  | queued
  | pending
  | provisioning
  | ready
  | active
  | ending
  | ended
  | failed
deriving DecidableEq, Repr

/-- `Session` from `src/lib/types.ts` (fields the editor view reads).
Optional fields of the TypeScript interface are `Option`s. -/
structure Session where
  id : String
  userId : String
  serverIp : Option String
  serverPort : Option Nat
  serverPassword : Option String
  mapName : String
  isActive : Bool
  status : SessionStatus
  provisioningError : Option String
  queuePosition : Option Nat
  editingCollectionName : Option String
deriving DecidableEq, Repr

/-- JavaScript truthiness of an optional string: `undefined` and the
empty string are falsy. -/
def strTruthy : Option String → Bool
  | none => false
  | some s => !s.isEmpty

/-- JavaScript truthiness of an optional number: `undefined` and `0`
are falsy. -/
def natTruthy : Option Nat → Bool
  | none => false
  | some n => n ≠ 0

/-- Modelled from the spec: the Zustand auth store
(`@/store/auth-store`, not under `src/`). §4.1 TokenStore: holder of
the current credential set and principal; `setTokens` is an atomic
replace, `logout` an idempotent clear. `isAuthenticated` is the flag
the `AuthProvider` render path reads. -/
structure AuthStore where
  accessToken : Option String
  refreshToken : Option String
  user : Option User
  isAuthenticated : Bool
deriving DecidableEq, Repr

/-- Modelled from the spec: `setTokens(access, refresh, principal)` —
atomic replace of the whole credential set (§4.1). -/
def AuthStore.setTokens (_st : AuthStore) (access refresh : String) (u : User) : AuthStore :=
  { accessToken := some access
    refreshToken := some refresh
    user := some u
    isAuthenticated := true }

/-- Modelled from the spec: `logout()` — idempotent clear of the
credential set (§4.1). -/
def AuthStore.logout (_st : AuthStore) : AuthStore :=
  { accessToken := none
    refreshToken := none
    user := none
    isAuthenticated := false }

/-- An outbound request as the interceptors see it: the axios `config`
object, with its `headers.Authorization` slot and the `_retry` marker
the response interceptor stashes on it. -/
structure Request where
  url : String
  authHeader : Option String
  retry : Bool
deriving DecidableEq, Repr

/-- An axios error as the response interceptor sees it:
`error.response?.status` plus `error.config`. -/
structure ApiError where
  status : Option Nat
  config : Request
deriving DecidableEq, Repr

/-- The request interceptor (`src/lib/api.ts` lines 25–31): attach
`Bearer <accessToken>` when the store holds one, leave the config
untouched otherwise. -/
def requestInterceptor (st : AuthStore) (config : Request) : Request :=
  match st.accessToken with
  | some token => { config with authHeader := some ("Bearer " ++ token) }
  | none => config

/-- Observable steps the response interceptor takes, in order:
the `axios.post` to `/auth/refresh`, the `setTokens` commit, and the
`api(originalRequest)` re-issue. -/
inductive Ev where
  | refreshAttempt
  | commitTokens
  | reissue
deriving DecidableEq, Repr

/-- What the response interceptor returns to the caller: the re-issued
original request, or the rejected error. -/
inductive Outcome where
  | reissued (req : Request)
  | rejected (e : ApiError)
deriving DecidableEq, Repr

/-- Result of one run of the response-error interceptor: the store it
leaves behind, what the caller sees, and the trace of observable
steps. -/
structure InterceptorResult where
  store : AuthStore
  outcome : Outcome
  trace : List Ev
deriving DecidableEq, Repr

/-- The response-error interceptor (`src/lib/api.ts` lines 34–58).
`refreshResult` is the outcome the awaited `axios.post('/auth/refresh')`
would have: `some auth` if it resolves with payload `auth`, `none` if it
rejects. On 401 without the `_retry` marker the marker is set, then: with
a refresh token present the exchange is attempted; on success the new
credential set is committed and the original request re-issued with the
new bearer header; on exchange failure `logout()` runs and the original
error is rejected. With no refresh token, and in every non-matching
case, the original error is rejected unchanged. -/
def responseErrorInterceptor (st : AuthStore) (error : ApiError)
    (refreshResult : Option AuthResponse) : InterceptorResult :=
  if error.status = some 401 ∧ error.config.retry = false then
    let originalRequest := { error.config with retry := true }
    match st.refreshToken with
    | some _ =>
      match refreshResult with
      | some authData =>
        { store := st.setTokens authData.accessToken authData.refreshToken authData.user
          outcome := .reissued
            { originalRequest with authHeader := some ("Bearer " ++ authData.accessToken) }
          trace := [.refreshAttempt, .commitTokens, .reissue] }
      | none =>
        { store := st.logout
          outcome := .rejected error
          trace := [.refreshAttempt] }
    | none =>
      { store := st
        outcome := .rejected error
        trace := [] }
  else
    { store := st
      outcome := .rejected error
      trace := [] }

/-- The `/auth/refresh` endpoint wire format the interceptor parses:
`axios.post<\x7b data: AuthResponse \x7d>` then `data.data`. Generic wrapper
for one level of `\x7b data: T \x7d` nesting, as used by `extract`/`unwrap`. -/
structure Wrapped (α : Type) where
  data : α
deriving DecidableEq, Repr

/-- `extract` (`src/lib/api.ts` line 68): unwrap the global response
wrapper, `r.data.data`. -/
def extract {α : Type} (r : Wrapped (Wrapped α)) : α :=
  r.data.data

/-- `unwrap` (`src/lib/api.ts` line 71): unwrap a double-wrapped
response, `r.data.data` — textually the same body as `extract`. -/
def unwrap {α : Type} (r : Wrapped (Wrapped α)) : α :=
  r.data.data

/-- An admin endpoint's `.then` continuation as written at its call
sites, e.g. `adminUsersApi.getAll` (`src/lib/api.ts` line 75):
`(r) => unwrap<AdminUser[]>(r.data)` — `unwrap` applied to `r.data`,
so the axios response is unwrapped three levels deep. -/
def adminThen {α : Type} (r : Wrapped (Wrapped (Wrapped α))) : α :=
  unwrap r.data

/-- A collections/lineups endpoint's `.then` continuation as written at
its call sites, e.g. `collectionsApi.getAll` (`src/lib/api.ts` line 93):
`(r) => extract<LineupCollection[]>(r)` — `extract` applied to `r`
itself, so the axios response is unwrapped two levels deep. -/
def collectionsThen {α : Type} (r : Wrapped (Wrapped α)) : α :=
  extract r

/-! ## AuthProvider (`src/components/auth/AuthProvider.tsx`) -/

/-- Where `router.replace` is pointed by `checkAuth`. -/
inductive Route where
  | login
  | loginUnauthorized
deriving DecidableEq, Repr

/-- Result of the `checkAuth` effect: the store it leaves, the redirect
it issued (if any), and whether the protected children render once
`checking` is false (the component returns `children` iff
`isAuthenticated` holds in the store). -/
structure GateResult where
  store : AuthStore
  redirect : Option Route
  rendersProtected : Bool
deriving DecidableEq, Repr

/-- `checkAuth` (`src/components/auth/AuthProvider.tsx` lines 19–43).
`exchange` is the outcome the awaited `authApi.refresh(storedRefreshToken)`
would have: `some data` on resolution, `none` when it rejects (e.g. the
endpoint responds 401). No stored refresh token → redirect to login.
Exchange resolves: role neither `admin` nor `worker` → `logout()` and
redirect to `/login?error=unauthorized`; otherwise `setTokens` commits
the fresh credential set and, `checking` done, the store's
`isAuthenticated` lets the children render. Exchange rejects →
`logout()` and redirect to login. -/
def checkAuth (st : AuthStore) (exchange : Option AuthResponse) : GateResult :=
  match st.refreshToken with
  | none =>
    { store := st, redirect := some .login, rendersProtected := st.isAuthenticated }
  | some _ =>
    match exchange with
    | some data =>
      if data.user.role ≠ .admin ∧ data.user.role ≠ .worker then
        { store := st.logout
          redirect := some .loginUnauthorized
          rendersProtected := (st.logout).isAuthenticated }
      else
        let st' := st.setTokens data.accessToken data.refreshToken data.user
        { store := st', redirect := none, rendersProtected := st'.isAuthenticated }
    | none =>
      { store := st.logout
        redirect := some .login
        rendersProtected := (st.logout).isAuthenticated }

/-! ## Editor session view (`src/app/dashboard/editor/page.tsx`) -/

/-- The polling gate (`page.tsx` lines 41–46): the effect returns early
unless `session?.isActive`, so an interval exists iff the cached session
is present with `isActive` true. -/
def pollingEnabled : Option Session → Bool
  | none => false
  | some s => s.isActive

/-- The interval period passed to `setInterval` (`page.tsx` line 44),
in milliseconds: constant, no backoff. -/
def pollIntervalMs : Nat := 5000

/-- One observed tick of `loadActiveSession` (`page.tsx` lines 61–68)
under the polling effect: if no interval is running the cached session
stays as it is; otherwise `setSession(data)` installs whatever
`adminSessionsApi.getActive()` returned (`resp`; errors leave the cache
unchanged, caught with only a `console.error`). -/
def pollTick (session : Option Session) (resp : Option Session) : Option Session :=
  if pollingEnabled session then resp else session

/-- Whether the Active Session panel renders (`page.tsx` line 182):
the ternary on `session?.isActive`. -/
def sessionPanelShown : Option Session → Bool
  | none => false
  | some s => s.isActive

/-- Whether the queue-position indicator renders (`page.tsx` lines
343–348): inside the Active Session panel, guarded only by the
truthiness of `session.queuePosition`. -/
def showsQueueIndicator (session : Option Session) : Bool :=
  sessionPanelShown session &&
    match session with
    | none => false
    | some s => natTruthy s.queuePosition

/-- Whether the connection-details block renders (`page.tsx` line 350):
inside the Active Session panel, guarded by
`(session.status === 'ready' || session.status === 'active') && session.serverIp`. -/
def showsConnectionDetails (session : Option Session) : Bool :=
  sessionPanelShown session &&
    match session with
    | none => false
    | some s =>
      (s.status = .ready || s.status = .active) && strTruthy s.serverIp

/-- Outcome of the awaited `adminSessionsApi.end(session.id)` call:
resolution carries the acknowledgement payload (`r.data`, of arbitrary
shape `α`), rejection carries nothing the handler reads. -/
inductive EndCallResult (α : Type) where
  | ok (ack : α)
  | err
deriving DecidableEq, Repr

/-- Result of `handleEndSession`: the cached session afterwards and
whether the end endpoint was invoked. -/
structure EndResult where
  session : Option Session
  apiCalled : Bool
deriving DecidableEq, Repr

/-- `handleEndSession` (`page.tsx` lines 102–116). No cached session →
early return, no call. Otherwise `adminSessionsApi.end` is called; on
resolution `setSession(null)` drops the cached session (the
acknowledgement payload is never read); on rejection the catch block
only logs and toasts, leaving the cached session unchanged. -/
def handleEndSession {α : Type} (session : Option Session)
    (endCall : EndCallResult α) : EndResult :=
  match session with
  | none => { session := none, apiCalled := false }
  | some s =>
    match endCall with
    | .ok _ => { session := none, apiCalled := true }
    | .err => { session := some s, apiCalled := true }

/-- Result of `handleStartSession`: the cached session afterwards,
whether the create endpoint was invoked, and the toast error surfaced
(if any). -/
structure StartResult where
  session : Option Session
  apiCalled : Bool
  toastError : Option String
deriving DecidableEq, Repr

/-- `handleStartSession` (`page.tsx` lines 80–100). Falsy
`selectedCollectionId` (the empty string) → `toast.error` and early
return before any dispatch. Otherwise `adminSessionsApi.createEditor`
is called (`createCall` its outcome: `some s` resolves with the new
session, `none` rejects with a remote message `remoteMsg`); on success
`setSession(newSession)`, on failure the remote message (or the
fallback text) is toasted and the cached session is unchanged. -/
def handleStartSession (selectedCollectionId : String) (session : Option Session)
    (createCall : Option Session) (remoteMsg : Option String) : StartResult :=
  if selectedCollectionId.isEmpty then
    { session := session, apiCalled := false
      toastError := some "Please select a collection" }
  else
    match createCall with
    | some newSession =>
      { session := some newSession, apiCalled := true, toastError := none }
    | none =>
      { session := session, apiCalled := true
        toastError := some (remoteMsg.getD "Failed to start editor session") }

/-! ## Claims about the refresh protocol (`src/lib/api.ts`) -/

/-- C1: on a 401 without the retried marker, with a refresh token in the
store and a successful refresh exchange, exactly one refresh is
attempted, the new credential set (access token, refresh token,
principal) is committed to the store before the re-issue step, and the
original call is re-issued exactly once carrying the new access token
(and the retried marker). -/
theorem refresh_retry_once (st : AuthStore) (e : ApiError) (auth : AuthResponse)
    (rt : String) (hrt : st.refreshToken = some rt)
    (h401 : e.status = some 401) (hretry : e.config.retry = false) :
    (responseErrorInterceptor st e (some auth)).trace.count .refreshAttempt = 1 ∧
    (responseErrorInterceptor st e (some auth)).trace.count .reissue = 1 ∧
    (responseErrorInterceptor st e (some auth)).trace =
      [.refreshAttempt, .commitTokens, .reissue] ∧
    (responseErrorInterceptor st e (some auth)).store =
      st.setTokens auth.accessToken auth.refreshToken auth.user ∧
    (responseErrorInterceptor st e (some auth)).outcome =
      .reissued { url := e.config.url
                  authHeader := some ("Bearer " ++ auth.accessToken)
                  retry := true } := by
  simp [responseErrorInterceptor, h401, hretry, hrt, List.count]

/-- Witness for C1 at a concrete store, error and refresh payload. -/
theorem refresh_retry_once_witness :
    (responseErrorInterceptor
        ⟨some "old", some "R", none, true⟩
        ⟨some 401, ⟨"/admin/users", some ("Bearer " ++ "old"), false⟩⟩
        (some ⟨"newA", "newR", ⟨"u1", "alice", false, .admin⟩⟩)).outcome =
      .reissued ⟨"/admin/users", some ("Bearer " ++ "newA"), true⟩ :=
  (refresh_retry_once
    ⟨some "old", some "R", none, true⟩
    ⟨some 401, ⟨"/admin/users", some ("Bearer " ++ "old"), false⟩⟩
    ⟨"newA", "newR", ⟨"u1", "alice", false, .admin⟩⟩
    "R" rfl rfl rfl).2.2.2.2

/-- C2 counterexample: the claim says that on a 401 with *no refresh
token present* the client forces logout so that subsequent calls carry
no bearer token. But the interceptor's `logout()` sits only in the
`catch` of the refresh exchange; with no refresh token it falls through
to `Promise.reject` leaving the store untouched, so a store holding a
stale access token and no refresh token keeps the stale token and the
next request still carries `Bearer stale`. -/
theorem refresh_failure_logout_counterexample :
    (responseErrorInterceptor
        ⟨some "stale", none, none, true⟩
        ⟨some 401, ⟨"/admin/users", some ("Bearer " ++ "stale"), false⟩⟩
        none).store.accessToken = some "stale" ∧
    (responseErrorInterceptor
        ⟨some "stale", none, none, true⟩
        ⟨some 401, ⟨"/admin/users", some ("Bearer " ++ "stale"), false⟩⟩
        none).store ≠
      AuthStore.logout ⟨some "stale", none, none, true⟩ ∧
    (requestInterceptor
        (responseErrorInterceptor
          ⟨some "stale", none, none, true⟩
          ⟨some 401, ⟨"/admin/users", some ("Bearer " ++ "stale"), false⟩⟩
          none).store
        ⟨"/admin/users", none, false⟩).authHeader = some ("Bearer " ++ "stale") := by
  refine ⟨rfl, ?_, rfl⟩
  decide

/-- C2 amended: on a 401 without the retried marker, *when a refresh
token is present and the refresh exchange is rejected*, the client
forces logout — the store ends with no credential, subsequent requests
pass the request interceptor unchanged (no bearer header attached) —
and the original authorization failure propagates as a rejection. When
no refresh token is present, no refresh is attempted, the store is left
exactly as it was (no logout), and the original failure propagates. -/
theorem refresh_failure_logout (st : AuthStore) (e : ApiError)
    (h401 : e.status = some 401) (hretry : e.config.retry = false) :
    (∀ rt : String, st.refreshToken = some rt →
      (responseErrorInterceptor st e none).store = st.logout ∧
      (responseErrorInterceptor st e none).store.accessToken = none ∧
      (∀ c : Request, requestInterceptor (responseErrorInterceptor st e none).store c = c) ∧
      (responseErrorInterceptor st e none).outcome = .rejected e) ∧
    (st.refreshToken = none →
      (responseErrorInterceptor st e none).store = st ∧
      (responseErrorInterceptor st e none).trace = [] ∧
      (responseErrorInterceptor st e none).outcome = .rejected e) := by
  constructor
  · intro rt hrt
    simp [responseErrorInterceptor, requestInterceptor, h401, hretry, hrt, AuthStore.logout]
  · intro hrt
    simp [responseErrorInterceptor, h401, hretry, hrt]

/-- Witness for the amended C2 at a concrete store and error. -/
theorem refresh_failure_logout_witness :
    (responseErrorInterceptor
        ⟨some "old", some "R", none, true⟩
        ⟨some 401, ⟨"/auth/me", some ("Bearer " ++ "old"), false⟩⟩
        none).store =
      AuthStore.logout ⟨some "old", some "R", none, true⟩ :=
  ((refresh_failure_logout
      ⟨some "old", some "R", none, true⟩
      ⟨some 401, ⟨"/auth/me", some ("Bearer " ++ "old"), false⟩⟩
      rfl rfl).1 "R" rfl).1

/-- C3: a refresh is attempted only on a 401 without the retried
marker. For any failure whose status is not 401 (including absent), and
for any 401 already carrying the marker, the interceptor attempts no
refresh (empty trace), leaves the store untouched, and rejects the
original error unmodified, whatever the refresh exchange would have
returned. -/
theorem non_401_or_retried_no_refresh (st : AuthStore) (e : ApiError)
    (refreshResult : Option AuthResponse)
    (h : e.status ≠ some 401 ∨ e.config.retry = true) :
    (responseErrorInterceptor st e refreshResult).trace = [] ∧
    (responseErrorInterceptor st e refreshResult).trace.count .refreshAttempt = 0 ∧
    (responseErrorInterceptor st e refreshResult).store = st ∧
    (responseErrorInterceptor st e refreshResult).outcome = .rejected e := by
  have hcond : ¬ (e.status = some 401 ∧ e.config.retry = false) := by
    rcases h with h | h
    · exact fun hc => h hc.1
    · exact fun hc => by simp [h] at hc
  simp [responseErrorInterceptor, hcond]

/-- Witness for C3 at a concrete 500-status error. -/
theorem non_401_or_retried_no_refresh_witness :
    (responseErrorInterceptor
        ⟨some "a", some "R", none, true⟩
        ⟨some 500, ⟨"/admin/stats/dashboard", some ("Bearer " ++ "a"), false⟩⟩
        none).outcome =
      .rejected ⟨some 500, ⟨"/admin/stats/dashboard", some ("Bearer " ++ "a"), false⟩⟩ :=
  (non_401_or_retried_no_refresh
    ⟨some "a", some "R", none, true⟩
    ⟨some 500, ⟨"/admin/stats/dashboard", some ("Bearer " ++ "a"), false⟩⟩
    none (Or.inl (by decide))).2.2.2

/-! ## Claims about the editor session view -/

/-- C4 counterexample: the claim says the queue-position indicator is
shown only when status = queued, and that a session with status
`active` and `queuePosition` 3 renders no indicator. The JSX guard is
only `session.queuePosition &&` inside the `session?.isActive` panel,
so exactly that session does render the indicator. -/
theorem queue_indicator_counterexample :
    showsQueueIndicator
      (some ⟨"s1", "u1", none, none, none, "de_mirage", true, .active,
             none, some 3, some "Default"⟩) = true ∧
    (⟨"s1", "u1", none, none, none, "de_mirage", true, .active,
       none, some 3, some "Default"⟩ : Session).status ≠ .queued := by
  exact ⟨rfl, by decide⟩

/-- C4 amended: the queue-position indicator is gated only on the
Active Session panel being shown (`isActive`) and on `queuePosition`
being truthy (present and non-zero); the session's status is never
consulted, so changing the status alone never changes whether the
indicator renders, and a session with status `active`, `isActive` true
and `queuePosition` 3 does render it. -/
theorem queue_indicator_gate (s : Session) :
    (∀ st1 st2 : SessionStatus,
      showsQueueIndicator (some { s with status := st1 }) =
        showsQueueIndicator (some { s with status := st2 })) ∧
    (showsQueueIndicator (some s) = true ↔
      s.isActive = true ∧ natTruthy s.queuePosition = true) := by
  constructor
  · intro st1 st2
    simp [showsQueueIndicator, sessionPanelShown]
  · simp [showsQueueIndicator, sessionPanelShown, Bool.and_eq_true]

/-- C5 counterexample: the claim says polling stops once a terminal
state (`ended`/`failed`) is observed and no further state changes are
applied. The effect's gate is `session?.isActive`, not the status: a
session observed with status `failed` but `isActive` true keeps the
interval alive, and the next tick still overwrites the cached
session. -/
theorem polling_terminal_counterexample :
    (⟨"s2", "u1", none, none, none, "de_dust2", true, .failed,
       some "provisioning failed", none, none⟩ : Session).status = .failed ∧
    pollingEnabled
      (some ⟨"s2", "u1", none, none, none, "de_dust2", true, .failed,
             some "provisioning failed", none, none⟩) = true ∧
    pollTick
      (some ⟨"s2", "u1", none, none, none, "de_dust2", true, .failed,
             some "provisioning failed", none, none⟩) none = none := by
  exact ⟨rfl, rfl, rfl⟩

/-- C5 amended: the editor view polls the active-session endpoint at a
fixed 5000 ms cadence (no backoff) exactly while the cached session is
present with `isActive` true; when that gate is false (session absent
or `isActive` false) there is no interval and no further state change
is applied; terminal status is not consulted, so polling outlives a
`failed` observation whenever the server leaves `isActive` true. -/
theorem polling_gate (s : Session) (cached resp : Option Session) :
    pollIntervalMs = 5000 ∧
    pollingEnabled (some s) = s.isActive ∧
    pollingEnabled none = false ∧
    (pollingEnabled cached = false → pollTick cached resp = cached) ∧
    (pollingEnabled cached = true → pollTick cached resp = resp) := by
  refine ⟨rfl, by cases s; rfl, rfl, ?_, ?_⟩
  · intro h
    simp [pollTick, h]
  · intro h
    simp [pollTick, h]

/-- Witness for the amended C5: an ended session reported inactive
stops the ticks from changing state. -/
theorem polling_gate_witness :
    pollTick
      (some ⟨"s3", "u1", none, none, none, "de_nuke", false, .ended,
             none, none, none⟩) none =
      some ⟨"s3", "u1", none, none, none, "de_nuke", false, .ended,
            none, none, none⟩ :=
  (polling_gate
    ⟨"s3", "u1", none, none, none, "de_nuke", false, .ended, none, none, none⟩
    (some ⟨"s3", "u1", none, none, none, "de_nuke", false, .ended, none, none, none⟩)
    none).2.2.2.1 rfl

/-- C7: connection details (server address, password, connect command)
render only when the observed status is `ready` or `active` and the
`serverIp` field is truthy; for every session whose status is `queued`,
`pending` or `provisioning` the block never renders. -/
theorem connection_details_gate (s : Session) :
    (showsConnectionDetails (some s) = true →
      (s.status = .ready ∨ s.status = .active) ∧ strTruthy s.serverIp = true) ∧
    ((s.status = .queued ∨ s.status = .pending ∨ s.status = .provisioning) →
      showsConnectionDetails (some s) = false) := by
  constructor
  · intro h
    simp [showsConnectionDetails, sessionPanelShown, Bool.and_eq_true] at h
    exact ⟨h.2.1, h.2.2⟩
  · intro h
    rcases h with h | h | h <;>
      simp [showsConnectionDetails, sessionPanelShown, h]

/-- Witness for C7: a ready session with a host shows the block and a
queued session does not. -/
theorem connection_details_gate_witness :
    ((⟨"s4", "u1", some "10.0.0.1", some 27015, some "pw", "de_mirage", true,
        .ready, none, none, none⟩ : Session).status = .ready ∨
      (⟨"s4", "u1", some "10.0.0.1", some 27015, some "pw", "de_mirage", true,
         .ready, none, none, none⟩ : Session).status = .active) ∧
    strTruthy (⟨"s4", "u1", some "10.0.0.1", some 27015, some "pw", "de_mirage",
                 true, .ready, none, none, none⟩ : Session).serverIp = true ∧
    showsConnectionDetails
      (some ⟨"s5", "u1", none, none, none, "de_mirage", true, .queued,
             none, some 2, none⟩) = false := by
  refine ⟨?_, ?_⟩
  · exact (connection_details_gate
      ⟨"s4", "u1", some "10.0.0.1", some 27015, some "pw", "de_mirage", true,
        .ready, none, none, none⟩).1 rfl |>.1
  · refine ⟨?_, ?_⟩
    · exact (connection_details_gate
        ⟨"s4", "u1", some "10.0.0.1", some 27015, some "pw", "de_mirage", true,
          .ready, none, none, none⟩).1 rfl |>.2
    · exact (connection_details_gate
        ⟨"s5", "u1", none, none, none, "de_mirage", true, .queued,
          none, some 2, none⟩).2 (Or.inl rfl)

/-! ## Claims about AuthGate, endSession, startSession and unwrapping -/

/-- C6: on activation with a stored refresh token, `checkAuth`'s three
outcomes. Exchange resolves with a `worker` or `admin` principal → the
fresh credential set is committed and the protected children render
with no redirect. Exchange resolves with a role outside the privileged
set → the store is cleared and the client redirects to
`/login?error=unauthorized`. Exchange rejects (e.g. the endpoint
responds 401) → the store is cleared and the client redirects to
`/login`. -/
theorem authGate_role_check (st : AuthStore) (rt : String)
    (hrt : st.refreshToken = some rt) :
    (∀ data : AuthResponse,
      (data.user.role = .worker ∨ data.user.role = .admin) →
        checkAuth st (some data) =
          { store := st.setTokens data.accessToken data.refreshToken data.user
            redirect := none
            rendersProtected := true }) ∧
    (∀ data : AuthResponse,
      data.user.role ≠ .worker → data.user.role ≠ .admin →
        checkAuth st (some data) =
          { store := st.logout
            redirect := some .loginUnauthorized
            rendersProtected := false }) ∧
    (checkAuth st none =
      { store := st.logout, redirect := some .login, rendersProtected := false }) := by
  refine ⟨?_, ?_, ?_⟩
  · intro data hrole
    rcases hrole with h | h <;>
      simp [checkAuth, hrt, h, AuthStore.setTokens, AuthStore.logout]
  · intro data hw ha
    simp [checkAuth, hrt, hw, ha, AuthStore.logout]
  · simp [checkAuth, hrt, AuthStore.logout]

/-- Witness for C6: a worker principal returned on exchange renders the
protected content, committing the new credential set. -/
theorem authGate_role_check_witness :
    checkAuth ⟨none, some "R", none, false⟩
        (some ⟨"newA", "newR", ⟨"u1", "alice", false, .worker⟩⟩) =
      { store := AuthStore.setTokens ⟨none, some "R", none, false⟩
          "newA" "newR" ⟨"u1", "alice", false, .worker⟩
        redirect := none
        rendersProtected := true } :=
  (authGate_role_check ⟨none, some "R", none, false⟩ "R" rfl).1
    ⟨"newA", "newR", ⟨"u1", "alice", false, .worker⟩⟩ (Or.inl rfl)

/-- C8: `handleEndSession` on a cached session calls the end endpoint;
on resolution it drops the cached session to `none` whatever the
acknowledgement payload was (so the terminal status is never read from
`endSession`'s own response), and on rejection it leaves the cached
session exactly as it was; with no cached session it makes no call. -/
theorem endSession_no_local_status (s : Session) (ack : Session) :
    handleEndSession (some s) (.ok ack) = { session := none, apiCalled := true } ∧
    handleEndSession (some s) (EndCallResult.err (α := Session)) =
      { session := some s, apiCalled := true } ∧
    handleEndSession (α := Session) none (.ok ack) =
      { session := none, apiCalled := false } :=
  ⟨rfl, rfl, rfl⟩

/-- C9: with an empty selected collection id, `handleStartSession`
surfaces the validation toast and returns before any dispatch: the
create endpoint is not invoked and the cached session is unchanged,
whatever the create call would have returned. -/
theorem startSession_validation (selectedCollectionId : String)
    (session : Option Session) (createCall : Option Session)
    (remoteMsg : Option String) (h : selectedCollectionId.isEmpty = true) :
    handleStartSession selectedCollectionId session createCall remoteMsg =
      { session := session
        apiCalled := false
        toastError := some "Please select a collection" } := by
  simp [handleStartSession, h]

/-- Witness for C9 at the empty collection id. -/
theorem startSession_validation_witness :
    handleStartSession "" none
        (some ⟨"s6", "u1", none, none, none, "de_mirage", true, .queued,
               none, some 1, none⟩) none =
      { session := none
        apiCalled := false
        toastError := some "Please select a collection" } :=
  startSession_validation "" none
    (some ⟨"s6", "u1", none, none, none, "de_mirage", true, .queued,
           none, some 1, none⟩) none rfl

/-- C10: `extract` and `unwrap` are extensionally equal (both return
`r.data.data`); the admin endpoints' deeper unwrapping comes only from
their call sites applying `unwrap` to `r.data`, reading three levels
deep, while collection/lineup call sites apply `extract` to `r`
itself, reading two levels deep. -/
theorem extract_unwrap_equivalence :
    (∀ (α : Type) (r : Wrapped (Wrapped α)),
      extract r = unwrap r ∧ extract r = r.data.data) ∧
    (∀ (α : Type) (r : Wrapped (Wrapped (Wrapped α))),
      adminThen r = r.data.data.data) ∧
    (∀ (α : Type) (r : Wrapped (Wrapped α)), collectionsThen r = r.data.data) :=
  ⟨fun _ _ => ⟨rfl, rfl⟩, fun _ _ => rfl, fun _ _ => rfl⟩

end NadeLauncher
